import Mathlib

/-!
Verification of the streaming chat proxy server (src/chat_proxy.py).

The whole core is the Flask application in chat_proxy.py: a POST /api/chat
handler that forwards a chat request to the OpenRouter completions endpoint
and relays the streamed body line by line, and a GET /health handler.  The
development below is a shallow embedding of that file: Python JSON values
become an inductive type, the handlers become pure functions, and the
observable effect of one request is the HTTP response together with the
list of payloads POSTed upstream while handling it.  Behaviors of the
external libraries that the handler leans on (Flask request.json, dict.get,
the requests library response.json, response.content and response.iter_lines)
are modelled where they are used, with line-splitting spelled out since the
relay claims are about lines of the raw upstream body.
-/

/-- JSON values as the proxy handles them (Python values after JSON
decoding).  Objects are association lists of string keys; a parsed Python
dict has unique keys.  Numeric leaves are integers: no claim involves a
fractional value. -/
inductive Json where
  | null : Json
  | bool (b : Bool) : Json
  | num (n : Int) : Json
  | str (s : String) : Json
  | arr (elems : List Json) : Json
  | obj (fields : List (String × Json)) : Json

/-- Whether a JSON value is an object, hence a Python dict after decoding. -/
def Json.isObj : Json → Bool
  | .obj _ => true
  | _ => false

/-- Field lookup on a JSON object; none on non-objects and missing keys. -/
def Json.lookupField : Json → String → Option Json
  | .obj fields, key => fields.lookup key
  | _, _ => none

/-- Process-wide configuration: OPENROUTER_API_KEY as read by os.getenv on
line 19 of chat_proxy.py, none when the environment variable is unset. -/
structure Config where
  apiKey : Option String

/-- Python truthiness of OPENROUTER_API_KEY, used by the guard on line 28
and by bool() on line 88: false when the variable is unset or empty. -/
def Config.keyConfigured (cfg : Config) : Bool :=
  match cfg.apiKey with
  | none => false
  | some s => !s.isEmpty

/-- Model of the requests library response object for the upstream POST on
lines 51 to 56.  content is the raw response body; parsed models the
response.json() call of line 59: some j when the body decodes as the JSON
value j, none when decoding raises (the decoder belongs to the external
requests library, so its verdict is part of the model of the upstream
response). -/
structure UpstreamResponse where
  status : Nat
  content : String
  parsed : Option Json

/-- Body of an HTTP response returned to the client: either a jsonify body
or a streamed sequence of written chunks. -/
inductive ResponseBody where
  | jsonBody (j : Json) : ResponseBody
  | stream (chunks : List String) : ResponseBody

/-- An HTTP response returned to the client. -/
structure HttpResponse where
  status : Nat
  mimetype : String
  body : ResponseBody

/-- Observable outcome of handling one request: the response delivered to
the client plus the list of payloads POSTed to the upstream endpoint while
handling it (empty when no upstream call was attempted). -/
structure Effect where
  response : HttpResponse
  upstreamCalls : List Json

/-- Exceptions the body of the try block on lines 31 to 77 can raise.
message models str(e) as interpolated on line 81; the exact text depends on
the Python and library versions, and no claim inspects it beyond it being
the string placed in the error field. -/
inductive PyExc where
  | badRequestJson : PyExc
  | attributeNoGet : PyExc
  | jsonDecodeErr : PyExc

/-- Rendering of each modelled exception, standing for str(e) on line 81. -/
def PyExc.message : PyExc → String
  | .badRequestJson => "400 Bad Request: The browser (or proxy) sent a request that this server could not understand."
  | .attributeNoGet => "object has no attribute get"
  | .jsonDecodeErr => "Expecting value: line 1 column 1 (char 0)"

/-- Python bytes.splitlines, the splitter behind response.iter_lines: split
on LF, CR and CRLF, stripping the terminators; a terminator at the end of
the input produces no trailing empty line, and the empty input has no
lines. -/
def splitlinesAux : List Char → List Char → List String
  | [], [] => []
  | [], acc => [String.mk acc.reverse]
  | '\r' :: '\n' :: rest, acc => String.mk acc.reverse :: splitlinesAux rest []
  | '\r' :: rest, acc => String.mk acc.reverse :: splitlinesAux rest []
  | '\n' :: rest, acc => String.mk acc.reverse :: splitlinesAux rest []
  | c :: rest, acc => splitlinesAux rest (c :: acc)

/-- Lines of a string under Python splitlines semantics. -/
def pySplitlines (s : String) : List String :=
  splitlinesAux s.data []

/-- Model of response.iter_lines() on line 66: the lines of the complete
upstream body with the line terminators stripped. -/
def iterLines (resp : UpstreamResponse) : List String :=
  pySplitlines resp.content

/-- The generator of lines 65 to 68: for each chunk produced by iter_lines,
when the chunk is non-empty (Python truthiness of bytes), yield the chunk
followed by exactly one newline. -/
def generate (resp : UpstreamResponse) : List String :=
  (iterLines resp).filterMap (fun chunk => if chunk = "" then none else some (chunk ++ "\n"))

/-- Python value.get(key, default) as used on line 61: a dict lookup with a
default (the value stored under the key when present, even when it is None),
and an AttributeError on any non-dict value, since lists, strings, numbers
and None have no get method. -/
def pyGet (v : Json) (key : String) (dflt : Json) : Except PyExc Json :=
  match v with
  | .obj fields => .ok ((fields.lookup key).getD dflt)
  | _ => .error .attributeNoGet

/-- The fallback error message of line 61. -/
def fallbackMsg : Json := Json.str "API call failed"

/-- Lines 59 to 61: error extraction for a non-200 upstream response.
error_data is the decoded body when content is non-empty (raising when it
does not decode) and the empty dict otherwise; the message is
error_data.get with key error and default empty dict, then .get with key
message and the fallback string. -/
def extractErrorMsg (resp : UpstreamResponse) : Except PyExc Json :=
  match (if resp.content = "" then some (Json.obj []) else resp.parsed) with
  | none => Except.error PyExc.jsonDecodeErr
  | some errorData =>
    match pyGet errorData "error" (Json.obj []) with
    | Except.error e => Except.error e
    | Except.ok errField => pyGet errField "message" fallbackMsg

/-- The upstream request body built on lines 44 to 48 from the parsed
client object: model (the client value when the key is present, the default
openai/gpt-5.1 otherwise, line 34), messages (the client value when
present, the empty list otherwise, line 33) and stream set to true. -/
def buildPayload (fields : List (String × Json)) : Json :=
  Json.obj
    [ ("model", (fields.lookup "model").getD (Json.str "openai/gpt-5.1")),
      ("messages", (fields.lookup "messages").getD (Json.arr [])),
      ("stream", Json.bool true) ]

/-- The client request body as observed through request.json on line 32:
either not valid JSON, in which case the property raises, or a parsed JSON
value. -/
inductive ClientBody where
  | invalid : ClientBody
  | json (j : Json) : ClientBody

/-- A jsonify response: mimetype application/json with the given status
(Flask defaults to 200 when the handler returns no explicit status). -/
def jsonResponse (status : Nat) (j : Json) : HttpResponse :=
  ⟨status, "application/json", ResponseBody.jsonBody j⟩

/-- A one-field JSON error object, the shape produced on lines 29 and 81. -/
def errorBody (msg : String) : Json := Json.obj [("error", Json.str msg)]

/-- The chat handler, lines 26 to 81 of chat_proxy.py, as a function of the
configuration, the client body and an oracle giving the upstream response
for the POSTed payload (requests.post, lines 51 to 56).  Control flow of
the source: the key guard of lines 28 and 29 runs before the try block; a
body that is not valid JSON makes request.json raise, and a valid JSON body
that is not an object makes data.get raise, both caught on line 79 and
turned into a 500 with the rendered exception; a non-200 upstream status
takes the error branch of lines 58 to 63, where a raise from response.json
or from the get chain is again caught on line 79; a 200 upstream status
returns the streaming response of lines 70 to 77. -/
def chat (cfg : Config) (body : ClientBody) (upstream : Json → UpstreamResponse) : Effect :=
  if cfg.keyConfigured = false then
    ⟨jsonResponse 500 (errorBody "API key not configured"), []⟩
  else
    match body with
    | .invalid => ⟨jsonResponse 500 (errorBody PyExc.badRequestJson.message), []⟩
    | .json data =>
      match data with
      | .obj fields =>
        let payload := buildPayload fields
        let resp := upstream payload
        if resp.status ≠ 200 then
          match extractErrorMsg resp with
          | .ok msg =>
            ⟨jsonResponse resp.status
              (Json.obj [("error", msg), ("status", Json.num resp.status)]), [payload]⟩
          | .error e => ⟨jsonResponse 500 (errorBody e.message), [payload]⟩
        else
          ⟨⟨200, "text/event-stream", ResponseBody.stream (generate resp)⟩, [payload]⟩
      | _ => ⟨jsonResponse 500 (errorBody PyExc.attributeNoGet.message), []⟩

/-- The health handler, lines 83 to 89: a jsonify object with status ok and
the truthiness of the configured key; it performs no upstream call. -/
def health (cfg : Config) : Effect :=
  ⟨jsonResponse 200
    (Json.obj [("status", Json.str "ok"), ("api_key_configured", Json.bool cfg.keyConfigured)]), []⟩

/-- Auxiliary: the yield of the generator, a filterMap over the lines,
equals filtering out the empty lines and then appending one newline to
each surviving line. -/
theorem filterMap_yield_eq_map_filter (ls : List String) :
    ls.filterMap (fun chunk => if chunk = "" then none else some (chunk ++ "\n")) =
      (ls.filter (fun l => !(l == ""))).map (fun l => l ++ "\n") := by
  induction ls with
  | nil => rfl
  | cons a tl ih =>
    by_cases h : a = "" <;> simp [List.filterMap_cons, List.filter_cons, h, ih]

/-- Auxiliary: with the key configured and an object body, the handler
POSTs exactly one upstream request, whose payload is buildPayload, on
every continuation of the upstream response. -/
theorem chat_posts_buildPayload (cfg : Config) (fields : List (String × Json))
    (upstream : Json → UpstreamResponse) (hkey : cfg.keyConfigured = true) :
    (chat cfg (ClientBody.json (Json.obj fields)) upstream).upstreamCalls =
      [buildPayload fields] := by
  by_cases h : (upstream (buildPayload fields)).status = 200
  · simp [chat, hkey, h]
  · cases he : extractErrorMsg (upstream (buildPayload fields)) with
    | ok m => simp [chat, hkey, h, he]
    | error e => simp [chat, hkey, h, he]

/-- Claim C1: for every chat request where the upstream response status is
200, the sequence of lines written to the client equals the sequence of
non-empty lines of the upstream streamed body, in the same order, each
written with its content unmodified and terminated by exactly one trailing
newline. -/
theorem chat_relays_nonempty_lines (cfg : Config) (fields : List (String × Json))
    (upstream : Json → UpstreamResponse)
    (hkey : cfg.keyConfigured = true)
    (hst : (upstream (buildPayload fields)).status = 200) :
    (chat cfg (ClientBody.json (Json.obj fields)) upstream).response =
      ⟨200, "text/event-stream",
        ResponseBody.stream
          (((pySplitlines (upstream (buildPayload fields)).content).filter
              (fun l => !(l == ""))).map (fun l => l ++ "\n"))⟩ := by
  simp [chat, hkey, hst, generate, iterLines, filterMap_yield_eq_map_filter]

/-- Witness for C1 on a concrete two-line streamed body with a blank line
between the data frames. -/
theorem chat_relays_nonempty_lines_witness :
    Config.keyConfigured ⟨some "k"⟩ = true ∧
    (chat ⟨some "k"⟩ (ClientBody.json (Json.obj [("messages", Json.arr [])]))
        (fun _ => ⟨200, "data: a\n\ndata: b\n", Option.none⟩)).response =
      ⟨200, "text/event-stream", ResponseBody.stream ["data: a\n", "data: b\n"]⟩ := by
  refine ⟨rfl, ?_⟩
  have h := chat_relays_nonempty_lines ⟨some "k"⟩ [("messages", Json.arr [])]
    (fun _ => ⟨200, "data: a\n\ndata: b\n", Option.none⟩) rfl rfl
  exact h.trans rfl

/-- Claim C2, counterexample: a 404 upstream response whose non-empty body
is not valid JSON makes response.json() raise on line 59; the catch-all on
line 79 then answers 500 with a generic error body, not the upstream 404
with the fallback message that the claim promises. -/
theorem chat_upstream_nonjson_error_cex :
    (chat ⟨some "k"⟩ (ClientBody.json (Json.obj [("messages", Json.arr [])]))
        (fun _ => ⟨404, "Not Found", Option.none⟩)).response.status = 500 ∧
    (500 : Nat) ≠ 404 ∧
    (chat ⟨some "k"⟩ (ClientBody.json (Json.obj [("messages", Json.arr [])]))
        (fun _ => ⟨404, "Not Found", Option.none⟩)).response.body =
      ResponseBody.jsonBody (errorBody PyExc.jsonDecodeErr.message) :=
  ⟨rfl, by decide, rfl⟩

/-- Claim C2 as amended: for a non-200 upstream response, when the body is
empty, or decodes as a JSON object, the client receives the same upstream
status with body made of the error message and the status, where the
message is error.message when the error field is an object holding one and
the fallback string when the body is empty, the error field is absent or
message is absent; when the body is non-empty and fails to decode as JSON,
the handler raises instead and the client receives 500 with a generic
error body. -/
theorem chat_upstream_error_response (cfg : Config) (fields : List (String × Json))
    (upstream : Json → UpstreamResponse) (resp : UpstreamResponse)
    (hkey : cfg.keyConfigured = true)
    (hresp : upstream (buildPayload fields) = resp)
    (hst : resp.status ≠ 200) :
    (resp.content = "" →
      (chat cfg (ClientBody.json (Json.obj fields)) upstream).response =
        jsonResponse resp.status
          (Json.obj [("error", fallbackMsg), ("status", Json.num resp.status)])) ∧
    (∀ ej eo m, resp.content ≠ "" → resp.parsed = some (Json.obj ej) →
      ej.lookup "error" = some (Json.obj eo) → eo.lookup "message" = some m →
      (chat cfg (ClientBody.json (Json.obj fields)) upstream).response =
        jsonResponse resp.status
          (Json.obj [("error", m), ("status", Json.num resp.status)])) ∧
    (∀ ej eo, resp.content ≠ "" → resp.parsed = some (Json.obj ej) →
      ej.lookup "error" = some (Json.obj eo) → eo.lookup "message" = none →
      (chat cfg (ClientBody.json (Json.obj fields)) upstream).response =
        jsonResponse resp.status
          (Json.obj [("error", fallbackMsg), ("status", Json.num resp.status)])) ∧
    (∀ ej, resp.content ≠ "" → resp.parsed = some (Json.obj ej) →
      ej.lookup "error" = none →
      (chat cfg (ClientBody.json (Json.obj fields)) upstream).response =
        jsonResponse resp.status
          (Json.obj [("error", fallbackMsg), ("status", Json.num resp.status)])) ∧
    (resp.content ≠ "" → resp.parsed = none →
      (chat cfg (ClientBody.json (Json.obj fields)) upstream).response =
        jsonResponse 500 (errorBody PyExc.jsonDecodeErr.message)) := by
  refine ⟨?_, ?_, ?_, ?_, ?_⟩
  · intro hc
    have he : extractErrorMsg resp = Except.ok fallbackMsg := by
      simp [extractErrorMsg, hc, pyGet]
    simp [chat, hkey, hresp, hst, he]
  · intro ej eo m hc hp h1 h2
    have he : extractErrorMsg resp = Except.ok m := by
      simp [extractErrorMsg, hc, hp, pyGet, h1, h2]
    simp [chat, hkey, hresp, hst, he]
  · intro ej eo hc hp h1 h2
    have he : extractErrorMsg resp = Except.ok fallbackMsg := by
      simp [extractErrorMsg, hc, hp, pyGet, h1, h2]
    simp [chat, hkey, hresp, hst, he]
  · intro ej hc hp h1
    have he : extractErrorMsg resp = Except.ok fallbackMsg := by
      simp [extractErrorMsg, hc, hp, pyGet, h1]
    simp [chat, hkey, hresp, hst, he]
  · intro hc hp
    have he : extractErrorMsg resp = Except.error PyExc.jsonDecodeErr := by
      simp [extractErrorMsg, hc, hp]
    simp [chat, hkey, hresp, hst, he]

/-- Witness for the amended C2: a 401 upstream response whose JSON body
carries error.message is relayed with status 401 and that message. -/
theorem chat_upstream_error_response_witness :
    (chat ⟨some "k"⟩ (ClientBody.json (Json.obj [("messages", Json.arr [])]))
        (fun _ => ⟨401, "x",
          some (Json.obj [("error", Json.obj [("message", Json.str "invalid key")])])⟩)).response =
      jsonResponse 401 (Json.obj [("error", Json.str "invalid key"), ("status", Json.num 401)]) := by
  have h := (chat_upstream_error_response ⟨some "k"⟩ [("messages", Json.arr [])]
      (fun _ => ⟨401, "x",
        some (Json.obj [("error", Json.obj [("message", Json.str "invalid key")])])⟩)
      ⟨401, "x", some (Json.obj [("error", Json.obj [("message", Json.str "invalid key")])])⟩
      rfl rfl (by decide)).2.1
  exact h [("error", Json.obj [("message", Json.str "invalid key")])]
    [("message", Json.str "invalid key")] (Json.str "invalid key")
    (by decide) rfl rfl rfl

/-- Claim C3: for every chat request handled while the upstream API key is
unset (Python-falsy), the server returns HTTP 500 with a JSON body
containing an error field, and the upstream HTTP call is never attempted. -/
theorem chat_unset_key_no_upstream (cfg : Config) (body : ClientBody)
    (upstream : Json → UpstreamResponse) (hkey : cfg.keyConfigured = false) :
    (chat cfg body upstream).response = jsonResponse 500 (errorBody "API key not configured") ∧
    (chat cfg body upstream).upstreamCalls = [] := by
  constructor <;> simp [chat, hkey]

/-- Witness for C3 with the key entirely unset. -/
theorem chat_unset_key_no_upstream_witness :
    Config.keyConfigured ⟨Option.none⟩ = false ∧
    (chat ⟨Option.none⟩ (ClientBody.json (Json.obj [("messages", Json.arr [])]))
        (fun _ => ⟨200, "", Option.none⟩)).response =
      jsonResponse 500 (errorBody "API key not configured") ∧
    (chat ⟨Option.none⟩ (ClientBody.json (Json.obj [("messages", Json.arr [])]))
        (fun _ => ⟨200, "", Option.none⟩)).upstreamCalls = [] :=
  ⟨rfl, chat_unset_key_no_upstream ⟨Option.none⟩ (ClientBody.json (Json.obj [("messages", Json.arr [])]))
    (fun _ => ⟨200, "", Option.none⟩) rfl⟩

/-- Claim C4, counterexample: a client object carrying a temperature field
is not forwarded verbatim; the POSTed payload holds only model, messages
and stream, and lacks the temperature field the client supplied. -/
theorem chat_payload_drops_extra_field_cex :
    (chat ⟨some "k"⟩
        (ClientBody.json (Json.obj [("messages", Json.arr []), ("temperature", Json.num 1)]))
        (fun _ => ⟨200, "", Option.none⟩)).upstreamCalls =
      [Json.obj [("model", Json.str "openai/gpt-5.1"), ("messages", Json.arr []),
                 ("stream", Json.bool true)]] ∧
    Json.lookupField (Json.obj [("messages", Json.arr []), ("temperature", Json.num 1)])
        "temperature" = some (Json.num 1) ∧
    Json.lookupField (Json.obj [("model", Json.str "openai/gpt-5.1"), ("messages", Json.arr []),
        ("stream", Json.bool true)]) "temperature" = none :=
  ⟨rfl, rfl, rfl⟩

/-- Claim C4 as amended: the upstream payload consists of exactly the
fields model, messages and stream, with model and messages taken verbatim
from the client object when present (defaulting otherwise) and stream set
to true; client fields other than model and messages are not forwarded. -/
theorem chat_payload_exact_shape (cfg : Config) (fields : List (String × Json))
    (upstream : Json → UpstreamResponse) (hkey : cfg.keyConfigured = true) :
    (chat cfg (ClientBody.json (Json.obj fields)) upstream).upstreamCalls =
      [Json.obj [("model", (fields.lookup "model").getD (Json.str "openai/gpt-5.1")),
                 ("messages", (fields.lookup "messages").getD (Json.arr [])),
                 ("stream", Json.bool true)]] :=
  chat_posts_buildPayload cfg fields upstream hkey

/-- Witness for the amended C4 on a client object with a model and an
unforwarded extra field. -/
theorem chat_payload_exact_shape_witness :
    (chat ⟨some "k"⟩
        (ClientBody.json (Json.obj [("model", Json.str "m1"), ("temperature", Json.num 1)]))
        (fun _ => ⟨200, "", Option.none⟩)).upstreamCalls =
      [Json.obj [("model", Json.str "m1"), ("messages", Json.arr []),
                 ("stream", Json.bool true)]] := by
  have h := chat_payload_exact_shape ⟨some "k"⟩
    [("model", Json.str "m1"), ("temperature", Json.num 1)] (fun _ => ⟨200, "", Option.none⟩) rfl
  exact h.trans rfl

/-- Claim C5: the upstream payload carries the client model string when one
is present and the default openai/gpt-5.1 when the key is absent, and its
stream field is true regardless of client input. -/
theorem chat_model_default_and_stream_true (cfg : Config) (fields : List (String × Json))
    (upstream : Json → UpstreamResponse) (hkey : cfg.keyConfigured = true) :
    (chat cfg (ClientBody.json (Json.obj fields)) upstream).upstreamCalls =
      [buildPayload fields] ∧
    Json.lookupField (buildPayload fields) "stream" = some (Json.bool true) ∧
    (∀ s, fields.lookup "model" = some (Json.str s) →
      Json.lookupField (buildPayload fields) "model" = some (Json.str s)) ∧
    (fields.lookup "model" = none →
      Json.lookupField (buildPayload fields) "model" = some (Json.str "openai/gpt-5.1")) := by
  refine ⟨chat_posts_buildPayload cfg fields upstream hkey, rfl, ?_, ?_⟩
  · intro s h
    have hm : Json.lookupField (buildPayload fields) "model" =
        some ((fields.lookup "model").getD (Json.str "openai/gpt-5.1")) := rfl
    rw [hm, h]
    rfl
  · intro h
    have hm : Json.lookupField (buildPayload fields) "model" =
        some ((fields.lookup "model").getD (Json.str "openai/gpt-5.1")) := rfl
    rw [hm, h]
    rfl

/-- Witness for C5 on a client object that supplies a model string. -/
theorem chat_model_default_and_stream_true_witness :
    Json.lookupField (buildPayload [("model", Json.str "m1")]) "model" = some (Json.str "m1") ∧
    Json.lookupField (buildPayload [("model", Json.str "m1")]) "stream" = some (Json.bool true) ∧
    (chat ⟨some "k"⟩ (ClientBody.json (Json.obj [("model", Json.str "m1")]))
        (fun _ => ⟨200, "", Option.none⟩)).upstreamCalls = [buildPayload [("model", Json.str "m1")]] := by
  have h := chat_model_default_and_stream_true ⟨some "k"⟩ [("model", Json.str "m1")]
    (fun _ => ⟨200, "", Option.none⟩) rfl
  exact ⟨h.2.2.1 "m1" rfl, h.2.1, h.1⟩

/-- Claim C6: a valid JSON object body lacking the messages key is not an
error; the handler forwards a payload whose messages field is the empty
sequence. -/
theorem chat_missing_messages_forwards_empty (cfg : Config) (fields : List (String × Json))
    (upstream : Json → UpstreamResponse) (hkey : cfg.keyConfigured = true)
    (hm : fields.lookup "messages" = none) :
    (chat cfg (ClientBody.json (Json.obj fields)) upstream).upstreamCalls =
      [buildPayload fields] ∧
    Json.lookupField (buildPayload fields) "messages" = some (Json.arr []) := by
  refine ⟨chat_posts_buildPayload cfg fields upstream hkey, ?_⟩
  have hq : Json.lookupField (buildPayload fields) "messages" =
      some ((fields.lookup "messages").getD (Json.arr [])) := rfl
  rw [hq, hm]
  rfl

/-- Witness for C6 on a client object that has a model but no messages. -/
theorem chat_missing_messages_forwards_empty_witness :
    List.lookup "messages" [("model", Json.str "m1")] = none ∧
    (chat ⟨some "k"⟩ (ClientBody.json (Json.obj [("model", Json.str "m1")]))
        (fun _ => ⟨200, "", Option.none⟩)).upstreamCalls = [buildPayload [("model", Json.str "m1")]] ∧
    Json.lookupField (buildPayload [("model", Json.str "m1")]) "messages" = some (Json.arr []) :=
  ⟨rfl, chat_missing_messages_forwards_empty ⟨some "k"⟩ [("model", Json.str "m1")]
    (fun _ => ⟨200, "", Option.none⟩) rfl rfl⟩

/-- Claim C7: a 200 upstream body consisting only of blank lines produces
zero written lines and the request still completes as a successful
streaming response. -/
theorem chat_blank_body_streams_nothing (cfg : Config) (fields : List (String × Json))
    (upstream : Json → UpstreamResponse) (hkey : cfg.keyConfigured = true)
    (hst : (upstream (buildPayload fields)).status = 200)
    (hb : ∀ l ∈ pySplitlines (upstream (buildPayload fields)).content, l = "") :
    (chat cfg (ClientBody.json (Json.obj fields)) upstream).response =
      ⟨200, "text/event-stream", ResponseBody.stream []⟩ := by
  have hg : generate (upstream (buildPayload fields)) = [] := by
    rw [generate, iterLines, List.filterMap_eq_nil_iff]
    intro l hl
    rw [hb l hl]
    simp
  simp [chat, hkey, hst, hg]

/-- Witness for C7 on a body of two blank lines. -/
theorem chat_blank_body_streams_nothing_witness :
    ((⟨200, "\n\n", Option.none⟩ : UpstreamResponse)).status = 200 ∧
    (∀ l ∈ pySplitlines "\n\n", l = "") ∧
    (chat ⟨some "k"⟩ (ClientBody.json (Json.obj [("messages", Json.arr [])]))
        (fun _ => ⟨200, "\n\n", Option.none⟩)).response =
      ⟨200, "text/event-stream", ResponseBody.stream []⟩ :=
  ⟨rfl, by decide, chat_blank_body_streams_nothing ⟨some "k"⟩ [("messages", Json.arr [])]
    (fun _ => ⟨200, "\n\n", Option.none⟩) rfl rfl (by decide)⟩

/-- Claim C8: health is a pure function of the configuration, so any two
calls under the same configuration return the identical value: a 200 JSON
object with status ok and api_key_configured reporting the truthiness of
the key, and with an empty list of upstream calls, meaning no network
request is ever made by it. -/
theorem health_stable_and_offline (cfg : Config) :
    health cfg =
      ⟨jsonResponse 200 (Json.obj [("status", Json.str "ok"),
          ("api_key_configured", Json.bool cfg.keyConfigured)]), []⟩ :=
  rfl

/-- Claim C9: a client body that is not valid JSON is caught at the
request-handling boundary (the handler still returns a value rather than
propagating the raise) and answered with HTTP 500 and a one-field JSON
error body, with no upstream call attempted. -/
theorem chat_invalid_json_500 (cfg : Config) (upstream : Json → UpstreamResponse) :
    (chat cfg ClientBody.invalid upstream).response.status = 500 ∧
    (∃ msg, (chat cfg ClientBody.invalid upstream).response.body =
      ResponseBody.jsonBody (errorBody msg)) ∧
    (chat cfg ClientBody.invalid upstream).upstreamCalls = [] := by
  cases hk : cfg.keyConfigured with
  | false =>
    refine ⟨?_, ⟨"API key not configured", ?_⟩, ?_⟩ <;> simp [chat, hk, jsonResponse]
  | true =>
    refine ⟨?_, ⟨PyExc.badRequestJson.message, ?_⟩, ?_⟩ <;> simp [chat, hk, jsonResponse]

/-- Claim C10: a client body that is valid JSON but not an object is
answered with HTTP 500 and a JSON error body, and is never forwarded
upstream. -/
theorem chat_nonobject_body_500 (cfg : Config) (upstream : Json → UpstreamResponse)
    (j : Json) (h : j.isObj = false) :
    (chat cfg (ClientBody.json j) upstream).response.status = 500 ∧
    (∃ msg, (chat cfg (ClientBody.json j) upstream).response.body =
      ResponseBody.jsonBody (errorBody msg)) ∧
    (chat cfg (ClientBody.json j) upstream).upstreamCalls = [] := by
  cases hk : cfg.keyConfigured with
  | false =>
    refine ⟨?_, ⟨"API key not configured", ?_⟩, ?_⟩ <;> simp [chat, hk, jsonResponse]
  | true =>
    refine ⟨?_, ⟨PyExc.attributeNoGet.message, ?_⟩, ?_⟩ <;>
      cases j <;> simp_all [chat, Json.isObj, jsonResponse]

/-- Witness for C10 on a JSON array body. -/
theorem chat_nonobject_body_500_witness :
    Json.isObj (Json.arr []) = false ∧
    (chat ⟨some "k"⟩ (ClientBody.json (Json.arr []))
        (fun _ => ⟨200, "", Option.none⟩)).response.status = 500 ∧
    (chat ⟨some "k"⟩ (ClientBody.json (Json.arr []))
        (fun _ => ⟨200, "", Option.none⟩)).upstreamCalls = [] := by
  have h := chat_nonobject_body_500 ⟨some "k"⟩ (fun _ => ⟨200, "", Option.none⟩)
    (Json.arr []) rfl
  exact ⟨rfl, h.1, h.2.2⟩
